import Mathlib

/-!
# BankSight — verification of the data-cleaning pipeline spec

Shallow embedding of `scripts/clean_data.py` (entity normalizers, format
loader, pipeline driver) and of report Q1 from `scripts/queries.py`.

A pandas cell is modelled by `Val`: a missing value (NaN), a string, or a
number (ℚ).  Each entity's DataFrame is a `List` of a structure whose
fields are `Val`s, with the canonical snake_case column set of the schema
(the CSV/JSON inputs of this repository always carry these columns, so the
`if col in df.columns` guards of the source are always taken).  Cell-level
operations mirror the pandas column operations used by the source:

* `pd.to_numeric(col, errors="coerce")`  → `toNumVal`
* `col.str.strip()`                      → `stripVal`
* `col.str.title()` / strip+title        → `titleVal` / `stripTitleVal`
* `pd.to_datetime(col, errors="coerce").dt.strftime(...)` → `normDateVal`
* `Series.clip`                          → `clipVal` / `clipLoVal`
* `df.fillna(...)`                       → `fillUnknown` / `fillWith`
* `df.drop_duplicates(subset=[k], keep="first")` → `dedupByKey`

CSV-derived frames have homogeneous columns (a column is either numeric
dtype — every cell a number — or object dtype — every cell a string/NaN),
so the cell-wise model of the dtype-dependent `.str` accessor is: a string
cell is transformed, a NaN cell stays NaN, a numeric cell is left alone by
the whole-frame strip (numeric columns are excluded from
`select_dtypes(include="object")`) and becomes NaN under a column-targeted
`.str` method.
-/

/-- A pandas cell: NaN, a string, or a number (floats modelled as ℚ). -/
inductive Val where
  | vNull : Val
  | vStr (s : String) : Val
  | vNum (q : ℚ) : Val
deriving DecidableEq, Repr

namespace Val

/-- Python `str.isspace`-style whitespace recognised by `strip()` (the
subset occurring in this repository's data). -/
def isWs (c : Char) : Bool :=
  c = ' ' || c = '\n' || c = '\t' || c = '\r'

end Val

/-- Python `s.strip()` on a string. -/
def pyStrip (s : String) : String :=
  String.mk (((s.toList.dropWhile Val.isWs).reverse.dropWhile Val.isWs).reverse)

/-- Python `s.upper()` (ASCII, the alphabet of this repository's data). -/
def pyUpper (s : String) : String :=
  String.mk (s.toList.map Char.toUpper)

/-- Python `str.title()`: an alphabetic character is uppercased when the
previous character is not alphabetic, lowercased otherwise. -/
def titleCase (s : String) : String :=
  String.mk ((s.toList.foldl
    (fun (acc : List Char × Bool) c =>
      if c.isAlpha then
        ((if acc.2 then c.toLower else c.toUpper) :: acc.1, true)
      else (c :: acc.1, false)) ([], false)).1.reverse)

/-- Value of a digit character. -/
def digitVal (c : Char) : ℕ := c.toNat - 48

/-- Natural number denoted by a digit list (most significant first). -/
def digitsToNat (ds : List Char) : ℕ :=
  ds.foldl (fun n c => 10 * n + digitVal c) 0

/-- Decimal-string parsing as performed by `pd.to_numeric`: optional sign,
integer digits, optional fractional part (`"12"`, `"-50"`, `"3.5"`,
`".5"`, `"5."`); anything else fails.  (`to_numeric` also accepts
exponents, which never occur in this repository's data.) -/
def parseNumQ (s : String) : Option ℚ :=
  let cs := (pyStrip s).toList
  let (neg, cs) :=
    match cs with
    | '-' :: t => (true, t)
    | '+' :: t => (false, t)
    | _ => (false, cs)
  let intP := cs.takeWhile Char.isDigit
  let rest := cs.drop intP.length
  let mk (ip fp : List Char) : Option ℚ :=
    if ip.isEmpty && fp.isEmpty then none
    else
      let n : ℤ := (digitsToNat ip * 10 ^ fp.length + digitsToNat fp : ℕ)
      let mag : ℚ := mkRat n (10 ^ fp.length)
      some (if neg then -mag else mag)
  match rest with
  | [] => mk intP []
  | '.' :: fr =>
      if fr.all Char.isDigit then mk intP fr else none
  | _ => none

/-! ## Dates

`pd.to_datetime(col, errors="coerce")` is modelled on the ISO
`YYYY-MM-DD` form this repository's data uses; an unparseable cell
coerces to NaT/NaN.  Day arithmetic uses the standard days-from-civil
ordinal so that timedelta `.dt.days` is exact. -/

/-- Leap-year test (proleptic Gregorian). -/
def isLeap (y : ℤ) : Bool :=
  (y % 4 = 0 && y % 100 ≠ 0) || y % 400 = 0

/-- Days in a month. -/
def daysInMonth (y : ℤ) (m : ℕ) : ℕ :=
  if m = 2 then (if isLeap y then 29 else 28)
  else if m = 4 || m = 6 || m = 9 || m = 11 then 30
  else 31

/-- Day ordinal of a civil date (days since 1970-01-01, standard
days-from-civil algorithm). -/
def daysFromCivil (y : ℤ) (m d : ℕ) : ℤ :=
  let y' : ℤ := y - (if m ≤ 2 then 1 else 0)
  let era : ℤ := (if 0 ≤ y' then y' else y' - 399).fdiv 400
  let yoe : ℤ := y' - era * 400
  let mp : ℤ := ((m : ℤ) + 9) % 12
  let doy : ℤ := (153 * mp + 2).fdiv 5 + (d : ℤ) - 1
  let doe : ℤ := yoe * 365 + yoe.fdiv 4 - yoe.fdiv 100 + doy
  era * 146097 + doe - 719468

/-- Parse `"YYYY-MM-DD"` into (year, month, day), validating ranges. -/
def parseDateYMD (s : String) : Option (ℤ × ℕ × ℕ) :=
  match (pyStrip s).toList.splitOn '-' with
  | [ys, ms, ds] =>
      if ys.length = 4 && ys.all Char.isDigit &&
         (ms.length = 1 || ms.length = 2) && ms.all Char.isDigit &&
         (ds.length = 1 || ds.length = 2) && ds.all Char.isDigit then
        let y : ℤ := (digitsToNat ys : ℤ)
        let m := digitsToNat ms
        let d := digitsToNat ds
        if 1 ≤ m && m ≤ 12 && 1 ≤ d && d ≤ daysInMonth y m then
          some (y, m, d)
        else none
      else none
  | _ => none

/-- Zero-padded decimal rendering of a natural number to `w` digits. -/
def padNat (w n : ℕ) : String :=
  let s := toString n
  String.mk (List.replicate (w - s.length) '0') ++ s

/-- `strftime("%Y-%m-%d")`. -/
def fmtDate (y : ℤ) (m d : ℕ) : String :=
  padNat 4 y.toNat ++ "-" ++ padNat 2 m ++ "-" ++ padNat 2 d

/-! ## Cell-level operations -/

namespace Val

/-- `col.str.strip()` over a whole-frame object-column pass: string cells
are stripped, NaN stays NaN, numeric cells (numeric-dtype columns, which
`select_dtypes(include="object")` excludes) are untouched. -/
def stripVal : Val → Val
  | vStr s => vStr (pyStrip s)
  | v => v

/-- `pd.to_numeric(cell, errors="coerce")`. -/
def toNumVal : Val → Val
  | vStr s =>
      match parseNumQ s with
      | some q => vNum q
      | none => vNull
  | vNum q => vNum q
  | vNull => vNull

/-- `Series.between(lo, hi)` — False on NaN. -/
def betweenVal (lo hi : ℚ) : Val → Bool
  | vNum q => decide (lo ≤ q) && decide (q ≤ hi)
  | _ => false

/-- `cell >= lo` — False on NaN. -/
def geVal (lo : ℚ) : Val → Bool
  | vNum q => decide (lo ≤ q)
  | _ => false

/-- `cell > lo` — False on NaN. -/
def gtVal (lo : ℚ) : Val → Bool
  | vNum q => decide (lo < q)
  | _ => false

/-- `Series.clip(lo, hi)` — NaN passes through unchanged. -/
def clipVal (lo hi : ℚ) : Val → Val
  | vNum q => vNum (min hi (max lo q))
  | v => v

/-- `Series.clip(lower=lo)` — NaN passes through unchanged. -/
def clipLoVal (lo : ℚ) : Val → Val
  | vNum q => vNum (max lo q)
  | v => v

/-- `df.fillna("Unknown")` on one cell. -/
def fillUnknown : Val → Val
  | vNull => vStr "Unknown"
  | v => v

/-- `df.fillna({col: d})` on one cell of the targeted column. -/
def fillWith (d : Val) : Val → Val
  | vNull => d
  | v => v

/-- `col.str.title()` on one cell of an object column: non-string cells
become NaN under the `.str` accessor. -/
def titleVal : Val → Val
  | vStr s => vStr (titleCase s)
  | _ => vNull

/-- `col.str.strip().str.title()` on one cell. -/
def stripTitleVal : Val → Val
  | vStr s => vStr (titleCase (pyStrip s))
  | _ => vNull

/-- `pd.to_datetime(cell, errors="coerce").strftime("%Y-%m-%d")`:
a parseable date renders canonically, anything else coerces to NaT,
which `strftime` leaves as NaN. -/
def normDateVal : Val → Val
  | vStr s =>
      match parseDateYMD s with
      | some (y, m, d) => vStr (fmtDate y m d)
      | none => vNull
  | _ => vNull

/-- Same with `strftime("%Y-%m-%d %H:%M:%S")`; the raw data carries dates
at midnight, so the time part renders as `00:00:00`. -/
def normDateTimeVal : Val → Val
  | vStr s =>
      match parseDateYMD s with
      | some (y, m, d) => vStr (fmtDate y m d ++ " 00:00:00")
      | none => vNull
  | _ => vNull

/-- `pd.to_datetime(cell, errors="coerce")` as a day ordinal (used for the
timedelta subtraction in `clean_support_tickets`). -/
def dateOrd : Val → Option ℤ
  | vStr s => (parseDateYMD s).map (fun p => daysFromCivil p.1 p.2.1 p.2.2)
  | _ => none

/-- `str(cell)` as applied by `astype(str)`: NaN renders as `"nan"`,
an int64 numeric cell renders its digits. -/
def pyStr : Val → String
  | vStr s => s
  | vNull => "nan"
  | vNum q => if q.den = 1 then toString q.num else toString q

end Val

/-! ## Deduplication

`df.drop_duplicates(subset=[key], keep="first")`: keep the first row for
each key value (pandas treats NaN keys as equal to each other), preserving
row order. -/

/-- Keep-first dedup by key, given the set of keys already seen. -/
def dedupByKeyAux (key : α → Val) : List Val → List α → List α
  | _, [] => []
  | seen, r :: rs =>
      if key r ∈ seen then dedupByKeyAux key seen rs
      else r :: dedupByKeyAux key (key r :: seen) rs

/-- `df.drop_duplicates(subset=[key], keep="first")`. -/
def dedupByKey (key : α → Val) (rows : List α) : List α :=
  dedupByKeyAux key [] rows

theorem dedupByKeyAux_sublist (key : α → Val) (seen : List Val)
    (rows : List α) : (dedupByKeyAux key seen rows).Sublist rows := by
  induction rows generalizing seen with
  | nil => simp [dedupByKeyAux]
  | cons r rs ih =>
      simp only [dedupByKeyAux]
      split
      · exact (ih seen).trans (List.sublist_cons_self r rs)
      · exact (ih (key r :: seen)).cons₂ r

/-- The rows surviving dedup are a sublist of the input (order preserved). -/
theorem dedupByKey_sublist (key : α → Val) (rows : List α) :
    (dedupByKey key rows).Sublist rows :=
  dedupByKeyAux_sublist key [] rows

theorem dedupByKeyAux_key_not_mem (key : α → Val) (seen : List Val)
    (rows : List α) (r : α) (hr : r ∈ dedupByKeyAux key seen rows) :
    key r ∉ seen := by
  induction rows generalizing seen with
  | nil => simp [dedupByKeyAux] at hr
  | cons x xs ih =>
      simp only [dedupByKeyAux] at hr
      split at hr
      · exact ih seen hr
      · rcases List.mem_cons.1 hr with h | h
        · subst h; assumption
        · have := ih (key x :: seen) h
          exact fun hmem => this (List.mem_cons_of_mem _ hmem)

theorem dedupByKeyAux_keys_nodup (key : α → Val) (seen : List Val)
    (rows : List α) :
    ((dedupByKeyAux key seen rows).map key).Nodup := by
  induction rows generalizing seen with
  | nil => simp [dedupByKeyAux]
  | cons x xs ih =>
      simp only [dedupByKeyAux]
      split
      · exact ih seen
      · refine List.nodup_cons.2 ⟨?_, ih (key x :: seen)⟩
        intro hmem
        rcases List.mem_map.1 hmem with ⟨r, hr, hk⟩
        exact dedupByKeyAux_key_not_mem key _ xs r hr (by simp [hk])

/-- After dedup, no two surviving rows share a key value. -/
theorem dedupByKey_keys_nodup (key : α → Val) (rows : List α) :
    ((dedupByKey key rows).map key).Nodup :=
  dedupByKeyAux_keys_nodup key [] rows

theorem dedupByKeyAux_first_wins (key : α → Val) (seen : List Val)
    (rows : List α) (r : α) (hr : r ∈ dedupByKeyAux key seen rows) :
    rows.find? (fun x => key x = key r) = some r := by
  induction rows generalizing seen with
  | nil => simp [dedupByKeyAux] at hr
  | cons x xs ih =>
      simp only [dedupByKeyAux] at hr
      by_cases hx : key x = key r
      · rw [List.find?_cons_of_pos _ (by simpa using hx)]
        split at hr
        · exfalso
          have hnotin := dedupByKeyAux_key_not_mem key seen xs r hr
          rename_i hmem
          exact hnotin (hx ▸ hmem)
        · rcases List.mem_cons.1 hr with h | h
          · simp [h]
          · exfalso
            have := dedupByKeyAux_key_not_mem key (key x :: seen) xs r h
            exact this (by simp [hx])
      · rw [List.find?_cons_of_neg _ (by simpa using hx)]
        split at hr
        · exact ih seen hr
        · rcases List.mem_cons.1 hr with h | h
          · exact absurd rfl (h ▸ hx)
          · exact ih (key x :: seen) h

/-- First-seen wins: every surviving row is the first input row bearing
its key value. -/
theorem dedupByKey_first_wins (key : α → Val) (rows : List α) (r : α)
    (hr : r ∈ dedupByKey key rows) :
    rows.find? (fun x => key x = key r) = some r :=
  dedupByKeyAux_first_wins key [] rows r hr

/-! ## Entity rows

One structure per entity, fields = the canonical snake_case columns the
raw files of this repository carry (after the column-name canonicalization
`c.strip().lower().replace(" ", "_")`, which the structure fields encode). -/

/-- A raw/cleaned `customers.csv` row. -/
structure CustomerRow where
  customer_id : Val
  name : Val
  gender : Val
  age : Val
  city : Val
  account_type : Val
  join_date : Val
deriving DecidableEq, Repr

/-- A raw/cleaned `accounts.csv` row. -/
structure AccountRow where
  customer_id : Val
  account_balance : Val
  last_updated : Val
deriving DecidableEq, Repr

/-- A raw/cleaned `transactions.csv` row. -/
structure TxnRow where
  txn_id : Val
  customer_id : Val
  txn_type : Val
  amount : Val
  txn_time : Val
  status : Val
deriving DecidableEq, Repr

/-- A raw/cleaned loans row. -/
structure LoanRow where
  loan_id : Val
  customer_id : Val
  account_id : Val
  branch : Val
  loan_type : Val
  loan_amount : Val
  interest_rate : Val
  loan_term_months : Val
  start_date : Val
  end_date : Val
  loan_status : Val
deriving DecidableEq, Repr

/-- A raw/cleaned `credit_cards.json` row. -/
structure CreditCardRow where
  card_id : Val
  customer_id : Val
  account_id : Val
  branch : Val
  card_number : Val
  card_type : Val
  card_network : Val
  credit_limit : Val
  current_balance : Val
  issued_date : Val
  expiry_date : Val
  status : Val
deriving DecidableEq, Repr

/-- A raw/cleaned branches row. -/
structure BranchRow where
  branch_id : Val
  branch_name : Val
  city : Val
  manager_name : Val
  total_employees : Val
  branch_revenue : Val
  opening_date : Val
  performance_rating : Val
deriving DecidableEq, Repr

/-- A raw/cleaned support-tickets row.  `resolution_days` is created by
the cleaner; raw rows carry `vNull` there. -/
structure TicketRow where
  ticket_id : Val
  customer_id : Val
  account_id : Val
  loan_id : Val
  branch_name : Val
  issue_category : Val
  description : Val
  date_opened : Val
  date_closed : Val
  priority : Val
  status : Val
  resolution_remarks : Val
  support_agent : Val
  channel : Val
  customer_rating : Val
  resolution_days : Val
deriving DecidableEq, Repr

/-! ## clean_customers -/

/-- Whole-frame `str.strip()` pass over the object columns of a customer
row (numeric-dtype cells are untouched, see `Val.stripVal`). -/
def stripCustomer (r : CustomerRow) : CustomerRow :=
  { customer_id := r.customer_id.stripVal
    name := r.name.stripVal
    gender := r.gender.stripVal
    age := r.age.stripVal
    city := r.city.stripVal
    account_type := r.account_type.stripVal
    join_date := r.join_date.stripVal }

/-- The gender normalization of `clean_customers`:
`str.upper().str.strip()` (NaN and non-string cells stay NaN under the
`.str` accessor) followed by the synonym lambda, which sends NaN — and
anything outside the M/MALE/F/FEMALE synonym sets — to `"Other"`. -/
def genderNorm (v : Val) : Val :=
  let u : Val :=
    match v with
    | .vStr s => .vStr (pyStrip (pyUpper s))
    | _ => .vNull
  match u with
  | .vStr s =>
      if s = "M" || s = "MALE" then .vStr "M"
      else if s = "F" || s = "FEMALE" then .vStr "F"
      else .vStr "Other"
  | _ => .vStr "Other"

/-- `df.fillna("Unknown")` over a customer row. -/
def fillCustomer (r : CustomerRow) : CustomerRow :=
  { customer_id := r.customer_id.fillUnknown
    name := r.name.fillUnknown
    gender := r.gender.fillUnknown
    age := r.age.fillUnknown
    city := r.city.fillUnknown
    account_type := r.account_type.fillUnknown
    join_date := r.join_date.fillUnknown }

/-- `clean_customers` (clean_data.py lines 59–100), written as the same
sequence of frame operations: dedup by `customer_id` keep-first, strip
object columns, normalize gender, coerce age and keep rows with age in
[18,100], parse/format `join_date`, title-case `city` and `account_type`,
fill residual NaN with `"Unknown"`. -/
def cleanCustomers (rows : List CustomerRow) : List CustomerRow :=
  ((((((((dedupByKey (fun r => r.customer_id) rows
    ).map stripCustomer
    ).map (fun r => { r with gender := genderNorm r.gender })
    ).map (fun r => { r with age := r.age.toNumVal })
    ).filter (fun r => r.age.betweenVal 18 100)
    ).map (fun r => { r with join_date := r.join_date.normDateVal })
    ).map (fun r => { r with city := r.city.titleVal })
    ).map (fun r => { r with account_type := r.account_type.titleVal })
    ).map fillCustomer

/-! ## clean_accounts -/

/-- `clean_accounts` (lines 105–125): dedup by `customer_id`, coerce
`account_balance` and keep rows with balance ≥ 0 (NaN compares False and
is dropped by this filter), parse/format `last_updated`, then
`fillna({"account_balance": 0.0})` on that single column. -/
def cleanAccounts (rows : List AccountRow) : List AccountRow :=
  ((((dedupByKey (fun r => r.customer_id) rows
    ).map (fun r => { r with account_balance := r.account_balance.toNumVal })
    ).filter (fun r => r.account_balance.geVal 0)
    ).map (fun r => { r with last_updated := r.last_updated.normDateTimeVal })
    ).map (fun r =>
      { r with account_balance := r.account_balance.fillWith (.vNum 0) })

/-! ## clean_transactions -/

/-- `df.fillna("Unknown")` over a transaction row. -/
def fillTxn (r : TxnRow) : TxnRow :=
  { txn_id := r.txn_id.fillUnknown
    customer_id := r.customer_id.fillUnknown
    txn_type := r.txn_type.fillUnknown
    amount := r.amount.fillUnknown
    txn_time := r.txn_time.fillUnknown
    status := r.status.fillUnknown }

/-- `clean_transactions` (lines 130–155): dedup by `txn_id`, coerce
`amount` and keep rows with amount > 0, parse/format `txn_time`,
strip+title `status` and `txn_type`, fill residual NaN. -/
def cleanTransactions (rows : List TxnRow) : List TxnRow :=
  ((((((dedupByKey (fun r => r.txn_id) rows
    ).map (fun r => { r with amount := r.amount.toNumVal })
    ).filter (fun r => r.amount.gtVal 0)
    ).map (fun r => { r with txn_time := r.txn_time.normDateTimeVal })
    ).map (fun r => { r with status := r.status.stripTitleVal })
    ).map (fun r => { r with txn_type := r.txn_type.stripTitleVal })
    ).map fillTxn

/-! ## clean_loans -/

/-- `df.fillna("Unknown")` over a loan row. -/
def fillLoan (r : LoanRow) : LoanRow :=
  { loan_id := r.loan_id.fillUnknown
    customer_id := r.customer_id.fillUnknown
    account_id := r.account_id.fillUnknown
    branch := r.branch.fillUnknown
    loan_type := r.loan_type.fillUnknown
    loan_amount := r.loan_amount.fillUnknown
    interest_rate := r.interest_rate.fillUnknown
    loan_term_months := r.loan_term_months.fillUnknown
    start_date := r.start_date.fillUnknown
    end_date := r.end_date.fillUnknown
    loan_status := r.loan_status.fillUnknown }

/-- `clean_loans` (lines 160–194), the cleaning stage applied after a
successful load: dedup by `loan_id`, coerce the three numeric columns,
parse/format the two date columns, strip+title `loan_status` and
`loan_type`, fill residual NaN. -/
def cleanLoans (rows : List LoanRow) : List LoanRow :=
  ((((((((dedupByKey (fun r => r.loan_id) rows
    ).map (fun r => { r with loan_amount := r.loan_amount.toNumVal })
    ).map (fun r => { r with interest_rate := r.interest_rate.toNumVal })
    ).map (fun r =>
      { r with loan_term_months := r.loan_term_months.toNumVal })
    ).map (fun r => { r with start_date := r.start_date.normDateVal })
    ).map (fun r => { r with end_date := r.end_date.normDateVal })
    ).map (fun r => { r with loan_status := r.loan_status.stripTitleVal })
    ).map (fun r => { r with loan_type := r.loan_type.stripTitleVal })
    ).map fillLoan

/-! ## clean_credit_cards -/

/-- Digits of a string: `re.sub(r"\D", "", v)`. -/
def digitsOf (v : String) : String :=
  String.mk (v.toList.filter Char.isDigit)

/-- Python `s[-4:]` for a string of length ≥ 4. -/
def lastFour (s : String) : String :=
  String.mk (s.toList.drop (s.toList.length - 4))

/-- The masking lambda of `clean_credit_cards` (lines 226–229), applied
to the `astype(str)` rendering of the cell. -/
def maskCard (v : String) : String :=
  if (digitsOf v).length ≥ 4 then
    "**** **** **** " ++ lastFour (digitsOf v)
  else "****"

/-- `df.fillna("Unknown")` over a credit-card row. -/
def fillCreditCard (r : CreditCardRow) : CreditCardRow :=
  { card_id := r.card_id.fillUnknown
    customer_id := r.customer_id.fillUnknown
    account_id := r.account_id.fillUnknown
    branch := r.branch.fillUnknown
    card_number := r.card_number.fillUnknown
    card_type := r.card_type.fillUnknown
    card_network := r.card_network.fillUnknown
    credit_limit := r.credit_limit.fillUnknown
    current_balance := r.current_balance.fillUnknown
    issued_date := r.issued_date.fillUnknown
    expiry_date := r.expiry_date.fillUnknown
    status := r.status.fillUnknown }

/-- `clean_credit_cards` (lines 199–234), cleaning stage after a
successful load: dedup by `card_id`, coerce the two numeric columns,
parse/format the two date columns, strip+title the three descriptive
columns, mask `card_number` (`astype(str)` then the masking lambda),
fill residual NaN. -/
def cleanCreditCards (rows : List CreditCardRow) : List CreditCardRow :=
  ((((((((dedupByKey (fun r => r.card_id) rows
    ).map (fun r => { r with credit_limit := r.credit_limit.toNumVal })
    ).map (fun r =>
      { r with current_balance := r.current_balance.toNumVal })
    ).map (fun r => { r with issued_date := r.issued_date.normDateVal })
    ).map (fun r => { r with expiry_date := r.expiry_date.normDateVal })
    ).map (fun r => { r with card_type := r.card_type.stripTitleVal })
    ).map (fun r => { r with card_network := r.card_network.stripTitleVal })
    ).map (fun r =>
      { r with status := r.status.stripTitleVal,
               card_number := .vStr (maskCard r.card_number.pyStr) })
    ).map fillCreditCard

/-! ## clean_branches -/

/-- `df.fillna("Unknown")` over a branch row. -/
def fillBranch (r : BranchRow) : BranchRow :=
  { branch_id := r.branch_id.fillUnknown
    branch_name := r.branch_name.fillUnknown
    city := r.city.fillUnknown
    manager_name := r.manager_name.fillUnknown
    total_employees := r.total_employees.fillUnknown
    branch_revenue := r.branch_revenue.fillUnknown
    opening_date := r.opening_date.fillUnknown
    performance_rating := r.performance_rating.fillUnknown }

/-- `clean_branches` (lines 239–275), cleaning stage after a successful
load: dedup by `branch_id`, coerce the three numeric columns,
parse/format `opening_date`, clip `performance_rating` into [1,5] (NaN
passes through the clip), strip+title the three descriptive columns,
fill residual NaN — which turns a NaN rating into `"Unknown"`. -/
def cleanBranches (rows : List BranchRow) : List BranchRow :=
  ((((((((dedupByKey (fun r => r.branch_id) rows
    ).map (fun r => { r with total_employees := r.total_employees.toNumVal })
    ).map (fun r => { r with branch_revenue := r.branch_revenue.toNumVal })
    ).map (fun r =>
      { r with performance_rating := r.performance_rating.toNumVal })
    ).map (fun r => { r with opening_date := r.opening_date.normDateVal })
    ).map (fun r =>
      { r with performance_rating := r.performance_rating.clipVal 1 5 })
    ).map (fun r => { r with branch_name := r.branch_name.stripTitleVal })
    ).map (fun r =>
      { r with city := r.city.stripTitleVal,
               manager_name := r.manager_name.stripTitleVal })
    ).map fillBranch

/-! ## clean_support_tickets -/

/-- `df.fillna("Unknown")` over a ticket row. -/
def fillTicket (r : TicketRow) : TicketRow :=
  { ticket_id := r.ticket_id.fillUnknown
    customer_id := r.customer_id.fillUnknown
    account_id := r.account_id.fillUnknown
    loan_id := r.loan_id.fillUnknown
    branch_name := r.branch_name.fillUnknown
    issue_category := r.issue_category.fillUnknown
    description := r.description.fillUnknown
    date_opened := r.date_opened.fillUnknown
    date_closed := r.date_closed.fillUnknown
    priority := r.priority.fillUnknown
    status := r.status.fillUnknown
    resolution_remarks := r.resolution_remarks.fillUnknown
    support_agent := r.support_agent.fillUnknown
    channel := r.channel.fillUnknown
    customer_rating := r.customer_rating.fillUnknown
    resolution_days := r.resolution_days.fillUnknown }

/-- The `resolution_days` computation (lines 303–308): re-parse the two
formatted date columns, subtract as day counts, clip at 0; if either
date is NaN the timedelta is NaN. -/
def resolutionDays (dateClosed dateOpened : Val) : Val :=
  match dateClosed.dateOrd, dateOpened.dateOrd with
  | some c, some o => .vNum (max 0 ((c - o : ℤ) : ℚ))
  | _, _ => .vNull

/-- `clean_support_tickets` (lines 280–321), cleaning stage after a
successful load: dedup by `ticket_id`, parse/format the two date columns,
compute `resolution_days` (difference clipped at 0), coerce and clip
`customer_rating` into [1,5], strip+title the four descriptive columns,
fill residual NaN. -/
def cleanSupportTickets (rows : List TicketRow) : List TicketRow :=
  (((((dedupByKey (fun r => r.ticket_id) rows
    ).map (fun r =>
      { r with date_opened := r.date_opened.normDateVal,
               date_closed := r.date_closed.normDateVal })
    ).map (fun r =>
      { r with resolution_days :=
          resolutionDays r.date_closed r.date_opened })
    ).map (fun r =>
      { r with customer_rating :=
          (r.customer_rating.toNumVal).clipVal 1 5 })
    ).map (fun r =>
      { r with priority := r.priority.stripTitleVal,
               status := r.status.stripTitleVal,
               issue_category := r.issue_category.stripTitleVal,
               channel := r.channel.stripTitleVal })
    ).map fillTicket

/-! ## Format Loader — `load_json`

`json.loads` is modelled by a standard strict JSON parser over the
grammar fragment this repository's data uses (objects, arrays, strings
with the common escapes, signed decimal numbers without exponents,
`true`/`false`/`null`); `json.loads` fails unless the whole input is one
JSON value. -/

/-- A parsed JSON value. -/
inductive J where
  | jNull : J
  | jBool (b : Bool) : J
  | jNum (q : ℚ) : J
  | jStr (s : String) : J
  | jArr (elems : List J) : J
  | jObj (fields : List (String × J)) : J
deriving Repr

/-- Map a string-escape character to the escaped character. -/
def escChar (c : Char) : Option Char :=
  if c = '"' || c = '\\' || c = '/' then some c
  else if c = 'n' then some '\n'
  else if c = 't' then some '\t'
  else if c = 'r' then some '\r'
  else if c = 'b' then some (Char.ofNat 8)
  else if c = 'f' then some (Char.ofNat 12)
  else none

/-- Parse a JSON string body (after the opening quote), returning the
string and the rest of the input. -/
def parseStringBody : List Char → Option (List Char × List Char)
  | [] => none
  | '"' :: rest => some ([], rest)
  | '\\' :: c :: rest =>
      match escChar c with
      | some e =>
          match parseStringBody rest with
          | some (s, r) => some (e :: s, r)
          | none => none
      | none => none
  | c :: rest =>
      if c = '\\' then none
      else
        match parseStringBody rest with
        | some (s, r) => some (c :: s, r)
        | none => none

/-- Skip JSON whitespace. -/
def skipWs : List Char → List Char
  | c :: cs => if Val.isWs c then skipWs cs else c :: cs
  | [] => []

/-- Characters that may start or continue a JSON number token. -/
def isNumChar (c : Char) : Bool :=
  c.isDigit || c = '-' || c = '+' || c = '.'

/-- Parse a JSON number token at the head of the input. -/
def parseNumTok (cs : List Char) : Option (ℚ × List Char) :=
  let tok := cs.takeWhile isNumChar
  if tok.isEmpty then none
  else
    match parseNumQ (String.mk tok) with
    | some q => some (q, cs.drop tok.length)
    | none => none

/-- Parsing mode: one JSON value, the members of an object after its
first `\x7b`, or the elements of an array after its first `[`. -/
inductive PMode where
  | pv : PMode
  | pm : PMode
  | pe : PMode

/-- Result of one parsing step: a value, an object's member list, or an
array's element list. -/
inductive PRes where
  | rv (v : J) : PRes
  | rm (fields : List (String × J)) : PRes
  | re (elems : List J) : PRes

/-- The recursive JSON parser: parse one value, an object member list or
an array element list at the head of the input; `fuel` bounds the
recursion depth (one non-mutual function so that evaluation is purely
structural). -/
def parseP : ℕ → PMode → List Char → Option (PRes × List Char)
  | 0, _, _ => none
  | fuel + 1, .pv, cs =>
      match skipWs cs with
      | '{' :: rest =>
          (match skipWs rest with
           | '}' :: r => some (.rv (.jObj []), r)
           | other =>
               match parseP fuel .pm other with
               | some (.rm fs, r) => some (.rv (.jObj fs), r)
               | _ => none)
      | '[' :: rest =>
          (match skipWs rest with
           | ']' :: r => some (.rv (.jArr []), r)
           | other =>
               match parseP fuel .pe other with
               | some (.re es, r) => some (.rv (.jArr es), r)
               | _ => none)
      | '"' :: rest =>
          (match parseStringBody rest with
           | some (s, r) => some (.rv (.jStr (String.mk s)), r)
           | none => none)
      | 't' :: 'r' :: 'u' :: 'e' :: rest => some (.rv (.jBool true), rest)
      | 'f' :: 'a' :: 'l' :: 's' :: 'e' :: rest =>
          some (.rv (.jBool false), rest)
      | 'n' :: 'u' :: 'l' :: 'l' :: rest => some (.rv .jNull, rest)
      | other =>
          match parseNumTok other with
          | some (q, r) => some (.rv (.jNum q), r)
          | none => none
  | fuel + 1, .pm, cs =>
      (match skipWs cs with
       | '"' :: rest =>
           (match parseStringBody rest with
            | some (k, r1) =>
                (match skipWs r1 with
                 | ':' :: r2 =>
                     (match parseP fuel .pv r2 with
                      | some (.rv v, r3) =>
                          (match skipWs r3 with
                           | ',' :: r4 =>
                               (match parseP fuel .pm r4 with
                                | some (.rm fs, r5) =>
                                    some (.rm ((String.mk k, v) :: fs), r5)
                                | _ => none)
                           | '}' :: r4 => some (.rm [(String.mk k, v)], r4)
                           | _ => none)
                      | _ => none)
                 | _ => none)
            | none => none)
       | _ => none)
  | fuel + 1, .pe, cs =>
      match parseP fuel .pv cs with
      | some (.rv v, r1) =>
          (match skipWs r1 with
           | ',' :: r2 =>
               (match parseP fuel .pe r2 with
                | some (.re es, r3) => some (.re (v :: es), r3)
                | _ => none)
           | ']' :: r2 => some (.re [v], r2)
           | _ => none)
      | _ => none


/-- `json.loads`: parse one JSON value and require the remainder to be
whitespace only. -/
def jsonLoads (s : String) : Option J :=
  match parseP (2 * s.length + 2) .pv s.toList with
  | some (.rv v, rest) => if (skipWs rest).isEmpty then some v else none
  | _ => none

/-- Python `str.replace(pat, rep)`: left-to-right, non-overlapping. -/
def replaceAux (pat rep : List Char) : ℕ → List Char → List Char
  | 0, s => s
  | fuel + 1, s =>
      if !pat.isEmpty && pat.isPrefixOf s then
        rep ++ replaceAux pat rep fuel (s.drop pat.length)
      else
        match s with
        | [] => []
        | c :: cs => c :: replaceAux pat rep fuel cs

/-- Python `s.replace(pat, rep)`. -/
def pyReplace (s pat rep : String) : String :=
  String.mk (replaceAux pat.toList rep.toList s.toList.length s.toList)

/-- Python `str.splitlines()` restricted to the `\n`/`\r\n`/`\r`
terminators (the ones occurring in this repository's files). -/
def pySplitlines (s : String) : List String :=
  (((pyReplace s "\r\n" "\n").toList).splitOn '\n').map String.mk

/-- `pd.DataFrame(data if isinstance(data, list) else [data])`:
the record list a parsed JSON value denotes. -/
def jRecords : J → List J
  | .jArr xs => xs
  | v => [v]

/-- `load_json` (clean_data.py lines 29–50) on the stripped file content:
(1) strict `json.loads`; (2) newline-delimited JSON, one object per
non-blank line, abandoned if any line fails; (3) replace `}\n{` and
`}\r\n{` by `},{`, wrap in `[...]`, and parse strictly — `none` models
the `json.JSONDecodeError` this last attempt raises on failure. -/
def loadJson (content : String) : Option (List J) :=
  let c := pyStrip content
  match jsonLoads c with
  | some v => some (jRecords v)
  | none =>
      let lines := (pySplitlines c).filter (fun l => !(pyStrip l).isEmpty)
      match lines.mapM jsonLoads with
      | some records => some records
      | none =>
          let fixed :=
            "[" ++
              pyReplace (pyReplace c "\x7d\n\x7b" "\x7d,\x7b")
                "\x7d\r\n\x7b" "\x7d,\x7b" ++ "]"
          match jsonLoads fixed with
          | some v => some (jRecords v)
          | none => none

/-! ## Pipeline driver (`__main__`, clean_data.py lines 326–341)

The driver calls the seven cleaners in a fixed order with no exception
handling.  What each call does depends only on the state of that entity's
raw file, modelled by `Src`:

* `ok rows` — the file exists and parses into `rows`;
* `missing` — the file does not exist.  `clean_customers`,
  `clean_accounts` and `clean_transactions` call `load_csv`, where
  `pd.read_csv` raises `FileNotFoundError`; the four other cleaners test
  `os.path.exists` first and return after printing a skip message;
* `unparseable` — the file exists but no parse strategy succeeds
  (`load_json` raises `json.JSONDecodeError`, `pd.read_csv` a
  `ParserError`), which propagates out of the cleaner.

An uncaught exception leaves `__main__` immediately, so the driver state
is the list of outputs saved so far plus a crashed flag. -/

/-- State of one entity's raw input file. -/
inductive Src (α : Type) where
  | missing : Src α
  | unparseable : Src α
  | ok (rows : List α) : Src α
deriving DecidableEq

/-- The raw-file environment of one pipeline run. -/
structure Env where
  customers : Src CustomerRow
  accounts : Src AccountRow
  transactions : Src TxnRow
  loans : Src LoanRow
  creditCards : Src CreditCardRow
  branches : Src BranchRow
  supportTickets : Src TicketRow

/-- A cleaned output file written by `save_csv`. -/
inductive Saved where
  | customers (rows : List CustomerRow) : Saved
  | accounts (rows : List AccountRow) : Saved
  | transactions (rows : List TxnRow) : Saved
  | loans (rows : List LoanRow) : Saved
  | creditCards (rows : List CreditCardRow) : Saved
  | branches (rows : List BranchRow) : Saved
  | supportTickets (rows : List TicketRow) : Saved
deriving DecidableEq

/-- Run a cleaner whose loader is `load_csv` (customers, accounts,
transactions): a missing or unparseable file raises, crashing the run. -/
def runReq (clean : List α → List α) (mk : List α → Saved) (src : Src α)
    (st : List Saved × Bool) : List Saved × Bool :=
  if st.2 then st
  else
    match src with
    | .ok rows => (st.1 ++ [mk (clean rows)], false)
    | _ => (st.1, true)

/-- Run a cleaner that tests `os.path.exists` first (loans, credit cards,
branches, support tickets): a missing file is a logged skip; a file that
defeats every parse strategy raises, crashing the run. -/
def runOpt (clean : List α → List α) (mk : List α → Saved) (src : Src α)
    (st : List Saved × Bool) : List Saved × Bool :=
  if st.2 then st
  else
    match src with
    | .ok rows => (st.1 ++ [mk (clean rows)], false)
    | .missing => st
    | .unparseable => (st.1, true)

/-- The `__main__` driver: the seven cleaners in source order, stopping
at the first uncaught exception. -/
def runPipeline (env : Env) : List Saved × Bool :=
  runOpt cleanSupportTickets Saved.supportTickets env.supportTickets
    (runOpt cleanBranches Saved.branches env.branches
      (runOpt cleanCreditCards Saved.creditCards env.creditCards
        (runOpt cleanLoans Saved.loans env.loans
          (runReq cleanTransactions Saved.transactions env.transactions
            (runReq cleanAccounts Saved.accounts env.accounts
              (runReq cleanCustomers Saved.customers env.customers
                ([], false)))))))

/-! ## Report Q1 (`queries.py` lines 15–28)

```sql
SELECT c.city, COUNT(c.customer_id) AS total_customers,
       ROUND(AVG(a.account_balance), 2) AS avg_balance
FROM customers c JOIN accounts a ON c.customer_id = a.customer_id
GROUP BY c.city ORDER BY total_customers DESC;
```
executed over the Schema Store's `customers` and `accounts` tables. -/

/-- A `customers` table row of the Schema Store (the columns Q1 reads). -/
structure StoreCustomer where
  customer_id : String
  city : String
deriving DecidableEq, Repr

/-- An `accounts` table row of the Schema Store (the columns Q1 reads). -/
structure StoreAccount where
  customer_id : String
  account_balance : ℚ
deriving DecidableEq, Repr

/-- The two tables Q1 queries. -/
structure Store where
  customers : List StoreCustomer
  accounts : List StoreAccount
deriving DecidableEq, Repr

/-- A Q1 result row. -/
structure Q1Row where
  city : String
  total_customers : ℕ
  avg_balance : ℚ
deriving DecidableEq, Repr

/-- Exact rational addition `a + b`, spelled through the smart
constructor `mkRat` (the `Rat` arithmetic operations of the library are
sealed against unfolding, which would block evaluation). -/
def qAdd (a b : ℚ) : ℚ :=
  mkRat (a.num * (b.den : ℤ) + b.num * (a.den : ℤ)) (a.den * b.den)

/-- Exact rational division `a / n` by a natural number (SQL `AVG`
denominators are group sizes). -/
def qDivNat (a : ℚ) (n : ℕ) : ℚ :=
  mkRat a.num (a.den * n)

/-- Exact rational product `a * n` with a natural number. -/
def qMulNat (a : ℚ) (n : ℕ) : ℚ :=
  mkRat (a.num * (n : ℤ)) a.den

/-- `⌊a⌋`. -/
def qFloor (a : ℚ) : ℤ :=
  a.num.fdiv (a.den : ℤ)

/-- SQL `ROUND(x, 2)`: round half away from zero at two decimals,
`⌊x·100 + 1/2⌋ / 100` for non-negative `x` and its mirror image for
negative `x`. -/
def round2 (q : ℚ) : ℚ :=
  if 0 ≤ q then mkRat (qFloor (qAdd (qMulNat q 100) (mkRat 1 2))) 100
  else -(mkRat (qFloor (qAdd (qMulNat (-q) 100) (mkRat 1 2))) 100)

/-- The inner join `customers c JOIN accounts a ON c.customer_id =
a.customer_id`, projected to (city, balance). -/
def q1Join (db : Store) : List (String × ℚ) :=
  db.customers.flatMap (fun c =>
    (db.accounts.filter (fun a => a.customer_id = c.customer_id)).map
      (fun a => (c.city, a.account_balance)))

/-- The distinct group keys of `GROUP BY c.city`, in first-seen order. -/
def q1Cities (rows : List (String × ℚ)) : List String :=
  (rows.map Prod.fst).dedup

/-- Stable insertion sort, descending on `total_customers`
(`ORDER BY total_customers DESC`). -/
def insertDesc (r : Q1Row) : List Q1Row → List Q1Row
  | [] => [r]
  | x :: xs =>
      if x.total_customers < r.total_customers then r :: x :: xs
      else x :: insertDesc r xs

/-- Report Q1: join, group by city, count and average per group, order by
count descending. -/
def q1 (db : Store) : List Q1Row :=
  let rows := q1Join db
  let groups := (q1Cities rows).map (fun city =>
    let vals := (rows.filter (fun p => p.1 = city)).map Prod.snd
    { city := city
      total_customers := vals.length
      avg_balance := round2 (qDivNat (vals.foldl qAdd 0) vals.length) :
        Q1Row })
  groups.foldl (fun acc r => insertDesc r acc) []

/-! ## Shared helper lemmas -/

theorem toNumVal_cases (v : Val) :
    v.toNumVal = .vNull ∨ ∃ q, v.toNumVal = .vNum q := by
  cases v with
  | vNull => exact Or.inl rfl
  | vNum q => exact Or.inr ⟨q, rfl⟩
  | vStr s =>
      cases h : parseNumQ s with
      | none => exact Or.inl (by simp [Val.toNumVal, h])
      | some q => exact Or.inr ⟨q, by simp [Val.toNumVal, h]⟩

theorem genderNorm_cases (v : Val) :
    genderNorm v = .vStr "M" ∨ genderNorm v = .vStr "F" ∨
      genderNorm v = .vStr "Other" := by
  cases v with
  | vNull => exact Or.inr (Or.inr rfl)
  | vNum q => exact Or.inr (Or.inr rfl)
  | vStr s =>
      simp only [genderNorm]
      split
      · exact Or.inl rfl
      · split
        · exact Or.inr (Or.inl rfl)
        · exact Or.inr (Or.inr rfl)

theorem maskCard_shape (v : String) :
    maskCard v = "****" ∨
      ∃ t, maskCard v = "**** **** **** " ++ t ∧ t.toList.length = 4 ∧
        t.toList.all Char.isDigit = true := by
  by_cases h : (digitsOf v).length ≥ 4
  · have hlen : 4 ≤ (digitsOf v).toList.length := h
    refine Or.inr ⟨lastFour (digitsOf v), by simp [maskCard, h], ?_, ?_⟩
    · show ((digitsOf v).toList.drop ((digitsOf v).toList.length - 4)).length = 4
      rw [List.length_drop]
      omega
    · refine List.all_eq_true.2 (fun c hc => ?_)
      have hmem := List.mem_of_mem_drop hc
      simp only [digitsOf] at hmem
      exact List.of_mem_filter hmem
  · exact Or.inl (by simp [maskCard, h])

/-! ## Claim theorems -/

/-- Raw account row with a missing balance cell. -/
def accMissingBalance : AccountRow :=
  ⟨.vStr "A1", .vNull, .vNull⟩

/-- Raw account row whose balance fails numeric coercion. -/
def accBadBalance : AccountRow :=
  ⟨.vStr "A2", .vStr "abc", .vNull⟩

/-- Raw account row with balance `-50`. -/
def accNegBalance : AccountRow :=
  ⟨.vStr "A3", .vStr "-50", .vNull⟩

/-- Raw transaction row with amount `0`. -/
def txnZeroAmount : TxnRow :=
  ⟨.vStr "T1", .vStr "C1", .vStr "upi", .vStr "0", .vNull, .vStr "success"⟩

/-- C2: the drop rules evaluated on the code.  A balance of `-50` is
dropped and an amount of `0` is dropped, as claimed; but an account row
whose balance is missing or non-numeric is **also dropped** — the filter
`account_balance >= 0` evaluates to False on the coerced NaN and runs
before `fillna(\x7b"account_balance": 0.0\x7d)`, so the claimed
keep-with-default-0.0 behaviour never happens. -/
theorem account_transaction_drop_rules_eval :
    cleanAccounts [accNegBalance] = [] ∧
    cleanTransactions [txnZeroAmount] = [] ∧
    cleanAccounts [accMissingBalance] = [] ∧
    cleanAccounts [accBadBalance] = [] := by
  refine ⟨?_, ?_, ?_, ?_⟩ <;> decide

/-- C6 (counterexample): a file that is exactly two concatenated JSON
objects with nothing at all between `\x7d` and `\x7b` defeats all three
loader strategies — strict parse, line-delimited parse, and the repair,
which only rewrites `\x7d`/newline/`\x7b` boundaries — so `load_json`
raises instead of yielding two records. -/
theorem concatenated_objects_no_newline_unparseable :
    loadJson "\x7b\"a\": 1\x7d\x7b\"b\": 2\x7d" = none := by rfl

/-- C6 (amended): the repair strategy does fire when the `\x7d\x7b`
boundary has a newline (or CRLF) between the braces and each object spans
several lines (so the line-delimited strategy also fails): two
concatenated objects then parse into two records. -/
theorem concatenated_objects_newline_repair :
    loadJson "\x7b\"a\":\n1\x7d\n\x7b\"b\":\n2\x7d" =
      some [J.jObj [("a", J.jNum 1)], J.jObj [("b", J.jNum 2)]] ∧
    loadJson "\x7b\"a\":\n1\x7d\r\n\x7b\"b\":\n2\x7d" =
      some [J.jObj [("a", J.jNum 1)], J.jObj [("b", J.jNum 2)]] := by
  exact ⟨rfl, rfl⟩

/-- C7: report #1 on a store of three Chennai customers joined to
accounts with balances 1000, 2000, 3000 returns the single row
(city "Chennai", total_customers 3, avg_balance 2000.00). -/
theorem q1_chennai_scenario :
    q1 ⟨[⟨"C1", "Chennai"⟩, ⟨"C2", "Chennai"⟩, ⟨"C3", "Chennai"⟩],
        [⟨"C1", 1000⟩, ⟨"C2", 2000⟩, ⟨"C3", 3000⟩]⟩ =
      [{ city := "Chennai", total_customers := 3, avg_balance := 2000 }] := by
  decide

/-- A rerun of `clean_customers`: the cleaner reads only the raw file and
`save_csv` overwrites the cleaned file unconditionally (`to_csv`, default
write mode), so the previously saved output never enters the
computation.  The `_prev` argument records that prior state. -/
def rerunCleanCustomers (raw : List CustomerRow)
    (_prev : Option (List CustomerRow)) : List CustomerRow :=
  cleanCustomers raw

/-- A rerun of `clean_accounts` (see `rerunCleanCustomers`). -/
def rerunCleanAccounts (raw : List AccountRow)
    (_prev : Option (List AccountRow)) : List AccountRow :=
  cleanAccounts raw

/-- A rerun of `clean_transactions` (see `rerunCleanCustomers`). -/
def rerunCleanTransactions (raw : List TxnRow)
    (_prev : Option (List TxnRow)) : List TxnRow :=
  cleanTransactions raw

/-- A rerun of `clean_loans` (see `rerunCleanCustomers`). -/
def rerunCleanLoans (raw : List LoanRow)
    (_prev : Option (List LoanRow)) : List LoanRow :=
  cleanLoans raw

/-- A rerun of `clean_credit_cards` (see `rerunCleanCustomers`). -/
def rerunCleanCreditCards (raw : List CreditCardRow)
    (_prev : Option (List CreditCardRow)) : List CreditCardRow :=
  cleanCreditCards raw

/-- A rerun of `clean_branches` (see `rerunCleanCustomers`). -/
def rerunCleanBranches (raw : List BranchRow)
    (_prev : Option (List BranchRow)) : List BranchRow :=
  cleanBranches raw

/-- A rerun of `clean_support_tickets` (see `rerunCleanCustomers`). -/
def rerunCleanSupportTickets (raw : List TicketRow)
    (_prev : Option (List TicketRow)) : List TicketRow :=
  cleanSupportTickets raw

/-- C8: every Entity Normalizer is deterministic and idempotent across
reruns — on a fixed raw input the produced cleaned rows do not depend on
whatever cleaned output a previous run left behind, and rerunning after
a first run reproduces the first run's output exactly. -/
theorem normalizer_rerun_deterministic :
    (∀ raw p p', rerunCleanCustomers raw p = rerunCleanCustomers raw p') ∧
    (∀ raw p p', rerunCleanAccounts raw p = rerunCleanAccounts raw p') ∧
    (∀ raw p p',
      rerunCleanTransactions raw p = rerunCleanTransactions raw p') ∧
    (∀ raw p p', rerunCleanLoans raw p = rerunCleanLoans raw p') ∧
    (∀ raw p p',
      rerunCleanCreditCards raw p = rerunCleanCreditCards raw p') ∧
    (∀ raw p p', rerunCleanBranches raw p = rerunCleanBranches raw p') ∧
    (∀ raw p p',
      rerunCleanSupportTickets raw p = rerunCleanSupportTickets raw p') ∧
    (∀ raw, rerunCleanCustomers raw (some (rerunCleanCustomers raw none)) =
      rerunCleanCustomers raw none) ∧
    (∀ raw, rerunCleanAccounts raw (some (rerunCleanAccounts raw none)) =
      rerunCleanAccounts raw none) ∧
    (∀ raw,
      rerunCleanTransactions raw (some (rerunCleanTransactions raw none)) =
        rerunCleanTransactions raw none) ∧
    (∀ raw, rerunCleanLoans raw (some (rerunCleanLoans raw none)) =
      rerunCleanLoans raw none) ∧
    (∀ raw,
      rerunCleanCreditCards raw (some (rerunCleanCreditCards raw none)) =
        rerunCleanCreditCards raw none) ∧
    (∀ raw, rerunCleanBranches raw (some (rerunCleanBranches raw none)) =
      rerunCleanBranches raw none) ∧
    (∀ raw,
      rerunCleanSupportTickets raw
          (some (rerunCleanSupportTickets raw none)) =
        rerunCleanSupportTickets raw none) := by
  and_intros <;> intros <;> rfl

/-- Raw credit-card row used to instantiate the masking theorem. -/
def ccMaskSample : CreditCardRow :=
  { card_id := Val.vStr "CC1", customer_id := Val.vStr "C1",
    account_id := Val.vNull, branch := Val.vNull,
    card_number := Val.vStr "4111-1111-1111-2345",
    card_type := Val.vStr "credit", card_network := Val.vStr "visa",
    credit_limit := Val.vStr "50000", current_balance := Val.vStr "1200",
    issued_date := Val.vStr "2021-03-04",
    expiry_date := Val.vStr "2026-03-04", status := Val.vStr "active" }

/-- The cleaned row `clean_credit_cards` produces from `ccMaskSample`. -/
def ccMaskSampleClean : CreditCardRow :=
  { card_id := Val.vStr "CC1", customer_id := Val.vStr "C1",
    account_id := Val.vStr "Unknown", branch := Val.vStr "Unknown",
    card_number := Val.vStr "**** **** **** 2345",
    card_type := Val.vStr "Credit", card_network := Val.vStr "Visa",
    credit_limit := Val.vNum 50000, current_balance := Val.vNum 1200,
    issued_date := Val.vStr "2021-03-04",
    expiry_date := Val.vStr "2026-03-04", status := Val.vStr "Active" }

/-- C5: card-number masking.  The two spec examples evaluate as claimed;
every cleaned credit-card row's `card_number` is the masking of the
stringified raw cell of some input row; and a masked value never carries
more than 4 digit characters. -/
theorem card_masking :
    maskCard "4111-1111-1111-2345" = "**** **** **** 2345" ∧
    maskCard "12" = "****" ∧
    (∀ v, ((maskCard v).toList.filter Char.isDigit).length ≤ 4) ∧
    ∀ rows r, r ∈ cleanCreditCards rows →
      ∃ raw, raw ∈ rows ∧
        r.card_number = .vStr (maskCard raw.card_number.pyStr) := by
  refine ⟨by decide, by decide, ?_, ?_⟩
  · intro v
    rcases maskCard_shape v with h | ⟨t, h, hlen, hdig⟩
    · rw [h]; decide
    · rw [h]
      have : ("**** **** **** " ++ t).toList =
          "**** **** **** ".toList ++ t.toList := rfl
      rw [this, List.filter_append]
      have hpre : "**** **** **** ".toList.filter Char.isDigit = [] := by
        decide
      rw [hpre, List.nil_append]
      calc (t.toList.filter Char.isDigit).length ≤ t.toList.length :=
            List.length_filter_le _ _
        _ ≤ 4 := by omega
  · intro rows r hr
    simp only [cleanCreditCards, List.mem_map] at hr
    obtain ⟨a7, ⟨a6, ⟨a5, ⟨a4, ⟨a3, ⟨a2, ⟨a1, ⟨a0, ha0, rfl⟩, rfl⟩, rfl⟩,
      rfl⟩, rfl⟩, rfl⟩, rfl⟩, rfl⟩ := hr
    refine ⟨a0, (dedupByKey_sublist _ rows).subset ha0, ?_⟩
    simp [fillCreditCard, Val.fillUnknown]

/-- Instantiation of `card_masking`: the cleaned row produced from
`ccMaskSample` carries the masked form of its raw card number. -/
theorem card_masking_witness :
    ∃ raw, raw ∈ [ccMaskSample] ∧
      ccMaskSampleClean.card_number =
        Val.vStr (maskCard raw.card_number.pyStr) :=
  card_masking.2.2.2 [ccMaskSample] ccMaskSampleClean (by decide)

/-- Raw credit-card row with a missing card number. -/
def ccNullCard : CreditCardRow :=
  { card_id := Val.vStr "CC2", customer_id := Val.vNull,
    account_id := Val.vNull, branch := Val.vNull, card_number := Val.vNull,
    card_type := Val.vNull, card_network := Val.vNull,
    credit_limit := Val.vNull, current_balance := Val.vNull,
    issued_date := Val.vNull, expiry_date := Val.vNull,
    status := Val.vNull }

/-- C10: a missing card number is stringified to `"nan"` by
`astype(str)` before masking, so it cleans to the literal `"****"` —
never the `"Unknown"` sentinel and never empty — and on any input cell
the masked value is either `"****"` or the mask prefix followed by
exactly 4 digits. -/
theorem missing_card_number_masks :
    Val.pyStr .vNull = "nan" ∧
    maskCard (Val.pyStr .vNull) = "****" ∧
    (cleanCreditCards [ccNullCard]).map (fun r => r.card_number) =
      [.vStr "****"] ∧
    ∀ v : Val, maskCard v.pyStr = "****" ∨
      ∃ t, maskCard v.pyStr = "**** **** **** " ++ t ∧
        t.toList.length = 4 ∧ t.toList.all Char.isDigit = true :=
  ⟨rfl, by decide, by decide, fun v => maskCard_shape v.pyStr⟩

/-- Raw customer row whose gender cell is missing. -/
def custNullGender : CustomerRow :=
  { customer_id := Val.vStr "C0002", name := Val.vStr "Asha",
    gender := Val.vNull, age := Val.vStr "30", city := Val.vStr "chennai",
    account_type := Val.vStr "savings", join_date := Val.vStr "2023-01-05" }

/-- The cleaned row `clean_customers` produces from `custNullGender`. -/
def custNullGenderClean : CustomerRow :=
  { customer_id := Val.vStr "C0002", name := Val.vStr "Asha",
    gender := Val.vStr "Other", age := Val.vNum 30,
    city := Val.vStr "Chennai", account_type := Val.vStr "Savings",
    join_date := Val.vStr "2023-01-05" }

/-- C9: the gender normalizer maps a missing cell to `"Other"` (never
the `"Unknown"` sentinel, which is applied only to cells still null
after the gender mapping), maps any value whose upper-cased, stripped
form is none of M/MALE/F/FEMALE to `"Other"`, and every cleaned customer
row's gender is one of `"M"`, `"F"`, `"Other"`. -/
theorem gender_missing_maps_to_other :
    genderNorm .vNull = .vStr "Other" ∧
    (cleanCustomers [custNullGender]).map (fun r => r.gender) =
      [.vStr "Other"] ∧
    (∀ s, pyStrip (pyUpper s) ≠ "M" → pyStrip (pyUpper s) ≠ "MALE" →
      pyStrip (pyUpper s) ≠ "F" → pyStrip (pyUpper s) ≠ "FEMALE" →
      genderNorm (.vStr s) = .vStr "Other") ∧
    ∀ rows r, r ∈ cleanCustomers rows →
      r.gender = .vStr "M" ∨ r.gender = .vStr "F" ∨
        r.gender = .vStr "Other" := by
  refine ⟨rfl, by decide, ?_, ?_⟩
  · intro s h1 h2 h3 h4
    simp [genderNorm, h1, h2, h3, h4]
  · intro rows r hr
    simp only [cleanCustomers, List.mem_map, List.mem_filter] at hr
    obtain ⟨a7, ⟨a6, ⟨a5, ⟨a4, ⟨⟨a3, ⟨a2, ⟨a0, ha0, rfl⟩, rfl⟩, rfl⟩, hage⟩,
      rfl⟩, rfl⟩, rfl⟩, rfl⟩ := hr
    rcases genderNorm_cases a0.gender.stripVal with h | h | h <;>
      simp [stripCustomer, fillCustomer, Val.fillUnknown, h]

/-- Instantiation of `gender_missing_maps_to_other` at a concrete
unmatched gender string and at the concrete cleaned row produced from
`custNullGender`. -/
theorem gender_missing_maps_to_other_witness :
    genderNorm (.vStr "x") = .vStr "Other" ∧
    (custNullGenderClean.gender = .vStr "M" ∨
     custNullGenderClean.gender = .vStr "F" ∨
     custNullGenderClean.gender = .vStr "Other") :=
  ⟨gender_missing_maps_to_other.2.2.1 "x" (by decide) (by decide)
      (by decide) (by decide),
   gender_missing_maps_to_other.2.2.2 [custNullGender] custNullGenderClean
      (by decide)⟩

theorem betweenVal_true {lo hi : ℚ} {v : Val}
    (h : v.betweenVal lo hi = true) :
    ∃ q, v = .vNum q ∧ lo ≤ q ∧ q ≤ hi := by
  cases v with
  | vNull => simp [Val.betweenVal] at h
  | vStr s => simp [Val.betweenVal] at h
  | vNum q =>
      simp only [Val.betweenVal, Bool.and_eq_true, decide_eq_true_eq] at h
      exact ⟨q, rfl, h.1, h.2⟩

/-- Raw branch row with a missing performance rating. -/
def branchNullRating : BranchRow :=
  { branch_id := Val.vStr "B1", branch_name := Val.vStr "anna nagar",
    city := Val.vStr "chennai", manager_name := Val.vNull,
    total_employees := Val.vStr "12", branch_revenue := Val.vStr "500000",
    opening_date := Val.vStr "2015-06-01",
    performance_rating := Val.vNull }

/-- The cleaned row `clean_branches` produces from `branchNullRating`. -/
def branchNullRatingClean : BranchRow :=
  { branch_id := Val.vStr "B1", branch_name := Val.vStr "Anna Nagar",
    city := Val.vStr "Chennai", manager_name := Val.vStr "Unknown",
    total_employees := Val.vNum 12, branch_revenue := Val.vNum 500000,
    opening_date := Val.vStr "2015-06-01",
    performance_rating := Val.vStr "Unknown" }

/-- C3 (counterexample): a branch row whose raw rating cell is missing
survives cleaning with `performance_rating` equal to the string sentinel
`"Unknown"` — `clip(1, 5)` passes NaN through, and the residual-null fill
replaces it — so not every cleaned Branch row has a numeric rating in
[1,5]. -/
theorem branch_missing_rating_sentinel :
    (cleanBranches [branchNullRating]).map
        (fun r => r.performance_rating) = [Val.vStr "Unknown"] ∧
    ¬ ∃ q : ℚ, Val.vStr "Unknown" = Val.vNum q := by
  refine ⟨by decide, ?_⟩
  rintro ⟨q, h⟩
  cases h

/-- Raw support-ticket row with both dates present and rating 4. -/
def ticketSample : TicketRow :=
  { ticket_id := Val.vStr "T1", customer_id := Val.vStr "C1",
    account_id := Val.vNull, loan_id := Val.vNull,
    branch_name := Val.vStr "anna nagar", issue_category := Val.vStr "atm",
    description := Val.vNull, date_opened := Val.vStr "2023-05-10",
    date_closed := Val.vStr "2023-05-14", priority := Val.vStr "high",
    status := Val.vStr "resolved", resolution_remarks := Val.vNull,
    support_agent := Val.vStr "agent a", channel := Val.vStr "phone",
    customer_rating := Val.vStr "4", resolution_days := Val.vNull }

/-- The cleaned row `clean_support_tickets` produces from
`ticketSample`. -/
def ticketSampleClean : TicketRow :=
  { ticket_id := Val.vStr "T1", customer_id := Val.vStr "C1",
    account_id := Val.vStr "Unknown", loan_id := Val.vStr "Unknown",
    branch_name := Val.vStr "anna nagar", issue_category := Val.vStr "Atm",
    description := Val.vStr "Unknown", date_opened := Val.vStr "2023-05-10",
    date_closed := Val.vStr "2023-05-14", priority := Val.vStr "High",
    status := Val.vStr "Resolved",
    resolution_remarks := Val.vStr "Unknown",
    support_agent := Val.vStr "agent a", channel := Val.vStr "Phone",
    customer_rating := Val.vNum 4, resolution_days := Val.vNum 4 }

/-- C3 (amended): every cleaned Customer row has a numeric age in
[18,100]; every cleaned Branch row's `performance_rating` is either a
number clamped into [1,5] or — when the raw cell is missing or
non-numeric — the sentinel `"Unknown"`; every cleaned SupportTicket
row's `customer_rating` is likewise a number in [1,5] or `"Unknown"`,
and its `resolution_days` is a number ≥ 0 whenever it is present
(`"Unknown"` when either date fails to parse). -/
theorem range_invariants_amended :
    (∀ rows r, r ∈ cleanCustomers rows →
      ∃ q, r.age = Val.vNum q ∧ 18 ≤ q ∧ q ≤ 100) ∧
    (∀ rows r, r ∈ cleanBranches rows →
      r.performance_rating = Val.vStr "Unknown" ∨
      ∃ q, r.performance_rating = Val.vNum q ∧ 1 ≤ q ∧ q ≤ 5) ∧
    (∀ rows r, r ∈ cleanSupportTickets rows →
      (r.customer_rating = Val.vStr "Unknown" ∨
        ∃ q, r.customer_rating = Val.vNum q ∧ 1 ≤ q ∧ q ≤ 5) ∧
      (r.resolution_days = Val.vStr "Unknown" ∨
        ∃ q, r.resolution_days = Val.vNum q ∧ 0 ≤ q)) := by
  refine ⟨?_, ?_, ?_⟩
  · intro rows r hr
    simp only [cleanCustomers, List.mem_map, List.mem_filter] at hr
    obtain ⟨a7, ⟨a6, ⟨a5, ⟨a4, ⟨_hc, hage⟩, rfl⟩, rfl⟩, rfl⟩, rfl⟩ := hr
    obtain ⟨q, hq, h1, h2⟩ := betweenVal_true hage
    exact ⟨q, by simp [fillCustomer, Val.fillUnknown, hq], h1, h2⟩
  · intro rows r hr
    simp only [cleanBranches, List.mem_map] at hr
    obtain ⟨a7, ⟨a6, ⟨a5, ⟨a4, ⟨a3, ⟨a2, ⟨a1, ⟨a0, ha0, rfl⟩, rfl⟩, rfl⟩,
      rfl⟩, rfl⟩, rfl⟩, rfl⟩, rfl⟩ := hr
    rcases toNumVal_cases a0.performance_rating with h | ⟨q, h⟩
    · exact Or.inl (by
        simp [fillBranch, Val.fillUnknown, Val.clipVal, h])
    · refine Or.inr ⟨min 5 (max 1 q), ?_, ?_, min_le_left _ _⟩
      · simp [fillBranch, Val.fillUnknown, Val.clipVal, h]
      · exact le_min (by norm_num) (le_max_left 1 q)
  · intro rows r hr
    simp only [cleanSupportTickets, List.mem_map] at hr
    obtain ⟨a4, ⟨a3, ⟨a2, ⟨a1, ⟨a0, ha0, rfl⟩, rfl⟩, rfl⟩, rfl⟩, rfl⟩ := hr
    constructor
    · rcases toNumVal_cases a0.customer_rating with h | ⟨q, h⟩
      · exact Or.inl (by
          simp [fillTicket, Val.fillUnknown, Val.clipVal, h])
      · refine Or.inr ⟨min 5 (max 1 q), ?_, ?_, min_le_left _ _⟩
        · simp [fillTicket, Val.fillUnknown, Val.clipVal, h]
        · exact le_min (by norm_num) (le_max_left 1 q)
    · cases hc : Val.dateOrd (Val.normDateVal a0.date_closed) with
      | none =>
          exact Or.inl (by
            simp [fillTicket, Val.fillUnknown, resolutionDays, hc])
      | some c =>
          cases ho : Val.dateOrd (Val.normDateVal a0.date_opened) with
          | none =>
              exact Or.inl (by
                simp [fillTicket, Val.fillUnknown, resolutionDays, hc, ho])
          | some o =>
              refine Or.inr ⟨max 0 ((c - o : ℤ) : ℚ), ?_, le_max_left _ _⟩
              simp [fillTicket, Val.fillUnknown, resolutionDays, hc, ho]

/-- Instantiation of `range_invariants_amended` at concrete cleaned rows
of the three entities. -/
theorem range_invariants_amended_witness :
    (∃ q, custNullGenderClean.age = Val.vNum q ∧ 18 ≤ q ∧ q ≤ 100) ∧
    (branchNullRatingClean.performance_rating = Val.vStr "Unknown" ∨
      ∃ q, branchNullRatingClean.performance_rating = Val.vNum q ∧
        1 ≤ q ∧ q ≤ 5) ∧
    ((ticketSampleClean.customer_rating = Val.vStr "Unknown" ∨
        ∃ q, ticketSampleClean.customer_rating = Val.vNum q ∧
          1 ≤ q ∧ q ≤ 5) ∧
      (ticketSampleClean.resolution_days = Val.vStr "Unknown" ∨
        ∃ q, ticketSampleClean.resolution_days = Val.vNum q ∧ 0 ≤ q)) :=
  ⟨range_invariants_amended.1 [custNullGender] custNullGenderClean
      (by decide),
   range_invariants_amended.2.1 [branchNullRating] branchNullRatingClean
      (by decide),
   range_invariants_amended.2.2 [ticketSample] ticketSampleClean
      (by decide)⟩

/-- Customer row whose key carries a leading space. -/
def custWsA : CustomerRow :=
  { customer_id := Val.vStr " C0001", name := Val.vStr "Asha",
    gender := Val.vStr "F", age := Val.vStr "30",
    city := Val.vStr "chennai", account_type := Val.vStr "savings",
    join_date := Val.vStr "2023-01-05" }

/-- Customer row with the same key, already trimmed. -/
def custWsB : CustomerRow :=
  { customer_id := Val.vStr "C0001", name := Val.vStr "Banu",
    gender := Val.vStr "M", age := Val.vStr "40",
    city := Val.vStr "madurai", account_type := Val.vStr "current",
    join_date := Val.vStr "2022-02-06" }

/-- C4 (counterexample): deduplication runs on the raw key cells
*before* whitespace stripping, so `" C0001"` and `"C0001"` are distinct
at dedup time, both rows survive, and after the strip the cleaned output
holds two rows sharing the primary-key value `"C0001"`. -/
theorem whitespace_key_duplicate_survives :
    (cleanCustomers [custWsA, custWsB]).map (fun r => r.customer_id) =
      [Val.vStr "C0001", Val.vStr "C0001"] ∧
    ¬ ((cleanCustomers [custWsA, custWsB]).map
        (fun r => r.customer_id)).Nodup := by
  exact ⟨by decide, by decide⟩

/-- C4 (amended): for every entity, `drop_duplicates(keep="first")` on
the raw key column leaves no two surviving rows with equal raw key
cells, keeps exactly the first input occurrence of each key, and
preserves the input order (the survivors are a sublist); and when every
raw customer key is an already-trimmed string — so the later whitespace
strip cannot merge distinct raw keys — the fully cleaned customer output
has pairwise-distinct primary keys. -/
theorem key_uniqueness_amended :
    (∀ (α : Type) (key : α → Val) (rows : List α),
      ((dedupByKey key rows).map key).Nodup) ∧
    (∀ (α : Type) (key : α → Val) (rows : List α),
      (dedupByKey key rows).Sublist rows) ∧
    (∀ (α : Type) (key : α → Val) (rows : List α) (r : α),
      r ∈ dedupByKey key rows →
        rows.find? (fun x => key x = key r) = some r) ∧
    (∀ rows : List CustomerRow,
      (∀ r ∈ rows, ∃ s, r.customer_id = Val.vStr s ∧ pyStrip s = s) →
      ((cleanCustomers rows).map (fun r => r.customer_id)).Nodup) := by
  refine ⟨fun α key rows => dedupByKey_keys_nodup key rows,
    fun α key rows => dedupByKey_sublist key rows,
    fun α key rows r hr => dedupByKey_first_wins key rows r hr, ?_⟩
  intro rows hkeys
  have hl := dedupByKey_sublist (fun r : CustomerRow => r.customer_id) rows
  simp only [cleanCustomers, List.map_map, List.filter_map]
  refine List.Nodup.sublist (List.Sublist.map _ (List.filter_sublist _)) ?_
  have hpt : ∀ x ∈ dedupByKey (fun r : CustomerRow => r.customer_id) rows,
      ((fun r => r.customer_id) ∘ fillCustomer ∘
        (fun r => { r with account_type := r.account_type.titleVal }) ∘
        (fun r => { r with city := r.city.titleVal }) ∘
        (fun r => { r with join_date := r.join_date.normDateVal }) ∘
        (fun r => { r with age := r.age.toNumVal }) ∘
        (fun r => { r with gender := genderNorm r.gender }) ∘
        stripCustomer) x = x.customer_id := by
    intro x hx
    obtain ⟨s, hs, hstrip⟩ := hkeys x (hl.subset hx)
    simp [Function.comp, fillCustomer, stripCustomer, Val.fillUnknown,
      Val.stripVal, hs, hstrip]
  rw [List.map_congr_left hpt]
  exact dedupByKey_keys_nodup _ rows

/-- Instantiation of `key_uniqueness_amended`: first-seen-wins on the
duplicate-key pair, and end-to-end key uniqueness on a trimmed-key
input. -/
theorem key_uniqueness_amended_witness :
    [custWsA, custWsB].find?
        (fun x => x.customer_id = custWsA.customer_id) = some custWsA ∧
    ((cleanCustomers [custWsB]).map (fun r => r.customer_id)).Nodup :=
  ⟨key_uniqueness_amended.2.2.1 CustomerRow (fun r => r.customer_id)
      [custWsA, custWsB] custWsA (by decide),
   key_uniqueness_amended.2.2.2 [custWsB] (by
      intro r hr
      simp only [List.mem_singleton] at hr
      subst hr
      exact ⟨"C0001", rfl, rfl⟩)⟩

/-- The outputs the driver saves for one optional-file entity: one
cleaned file when the raw file exists and parses, none when it is
missing. -/
def optPart (mk : List α → Saved) (clean : List α → List α) :
    Src α → List Saved
  | .ok rows => [mk (clean rows)]
  | _ => []

theorem runReq_ok (clean : List α → List α) (mk : List α → Saved)
    (rows : List α) (outs : List Saved) :
    runReq clean mk (.ok rows) (outs, false) =
      (outs ++ [mk (clean rows)], false) := rfl

theorem runOpt_step (clean : List α → List α) (mk : List α → Saved)
    (src : Src α) (outs : List Saved) (h : src ≠ .unparseable) :
    runOpt clean mk src (outs, false) =
      (outs ++ optPart mk clean src, false) := by
  cases src with
  | missing => simp [runOpt, optPart]
  | unparseable => exact absurd rfl h
  | ok rows => simp [runOpt, optPart]

/-- Environment in which only the customers CSV is missing. -/
def envMissingCustomers : Env :=
  { customers := .missing, accounts := .ok [], transactions := .ok [],
    loans := .ok [], creditCards := .ok [], branches := .ok [],
    supportTickets := .ok [] }

/-- C1 (counterexample): with only `customers.csv` missing and every
other raw file present and parseable, the run crashes at the very first
cleaner (`pd.read_csv` raises `FileNotFoundError` and `__main__` has no
handler), and **none** of the remaining six entities' cleaned outputs
are produced — the missing file is not logged as a skip. -/
theorem pipeline_missing_customers_crashes :
    runPipeline envMissingCustomers = ([], true) := rfl

/-- C1 (amended): failure isolation holds only for the four
optional-file entities (loans, credit cards, branches, support
tickets), whose cleaners test `os.path.exists` and skip a missing file;
provided the three CSV entities load and no file is unparseable, the
driver finishes without crashing, producing one cleaned output per present
entity — in particular, when exactly one optional entity's file is
missing, the other six outputs are all produced.  (A missing CSV for
customers, accounts or transactions, or an unparseable file anywhere,
aborts the run at that entity, as `pipeline_missing_customers_crashes`
shows.) -/
theorem pipeline_isolation_optional_entities (env : Env)
    (cs : List CustomerRow) (accs : List AccountRow) (ts : List TxnRow)
    (hc : env.customers = .ok cs) (ha : env.accounts = .ok accs)
    (ht : env.transactions = .ok ts)
    (hl : env.loans ≠ .unparseable)
    (hcc : env.creditCards ≠ .unparseable)
    (hb : env.branches ≠ .unparseable)
    (hst : env.supportTickets ≠ .unparseable) :
    runPipeline env =
      ([Saved.customers (cleanCustomers cs),
        Saved.accounts (cleanAccounts accs),
        Saved.transactions (cleanTransactions ts)] ++
        optPart Saved.loans cleanLoans env.loans ++
        optPart Saved.creditCards cleanCreditCards env.creditCards ++
        optPart Saved.branches cleanBranches env.branches ++
        optPart Saved.supportTickets cleanSupportTickets
          env.supportTickets, false) := by
  unfold runPipeline
  rw [hc, ha, ht, runReq_ok, runReq_ok, runReq_ok,
    runOpt_step _ _ _ _ hl, runOpt_step _ _ _ _ hcc,
    runOpt_step _ _ _ _ hb, runOpt_step _ _ _ _ hst]
  simp

/-- Environment in which only the loans file is missing. -/
def envMissingLoans : Env :=
  { customers := .ok [], accounts := .ok [], transactions := .ok [],
    loans := .missing, creditCards := .ok [], branches := .ok [],
    supportTickets := .ok [] }

/-- Instantiation of `pipeline_isolation_optional_entities`: with only
the loans file missing, the remaining six entities' outputs are all
produced and the run does not crash. -/
theorem pipeline_isolation_optional_entities_witness :
    runPipeline envMissingLoans =
      ([Saved.customers (cleanCustomers []),
        Saved.accounts (cleanAccounts []),
        Saved.transactions (cleanTransactions []),
        Saved.creditCards (cleanCreditCards []),
        Saved.branches (cleanBranches []),
        Saved.supportTickets (cleanSupportTickets [])], false) := by
  have h := pipeline_isolation_optional_entities envMissingLoans [] [] []
    rfl rfl rfl (by decide) (by decide) (by decide) (by decide)
  simpa [optPart, envMissingLoans] using h
